import Mathlib

/-!
Verification of the medEmotion consultation bot (src/main.py) against its
specification.  The Python source is shallowly embedded: database rows become
structures, the two SQLAlchemy tables become lists inside a `DB` record,
aiogram FSM state becomes an explicit `Session` value, timestamps become
integer seconds (a calendar day is floor division by 86400), and the external
Gemini call becomes an oracle `String → Option String` (`none` models a raised
exception).  Each handler of the source is translated into a pure function on
these states; theorems below settle the frozen claims C1 – C10.
-/

/-- Constant `MAX_DAILY_CONSULTATIONS = 10` from main.py. -/
def MAX_DAILY_CONSULTATIONS : Nat := 10

/-- Seconds in one day; used to model SQL `date()` / `datetime.date` bucketing. -/
def secsPerDay : Int := 86400

/-- Calendar day of a timestamp (floor division, matching SQL `date()` on a
datetime measured in seconds since an epoch midnight). -/
def calendarDay (t : Int) : Int := t / secsPerDay

/-- Row of the `users` table (class `User` in main.py); only the fields the
claims touch are kept (identity, counters, aggregate feedback fields). -/
structure User where
  userId : Int
  consultationCount : Nat
  dailyConsultationCount : Nat
  lastConsultationDate : Option Int
  feedbackScore : ℚ
  feedbackCount : Nat
deriving Repr, DecidableEq

/-- Row of the `consultations` table (class `Consultation` in main.py). -/
structure Consultation where
  id : Nat
  userId : Int
  category : String
  content : String
  response : String
  createdAt : Int
  resolvedAt : Option Int
  isResolved : Bool
  feedbackScore : Option Int
  feedbackText : Option String
deriving Repr, DecidableEq

/-- The persistent store: the two tables plus the autoincrement counter that
assigns `Consultation.id` at creation. -/
structure DB where
  users : List User
  consultations : List Consultation
  nextConsultationId : Nat
deriving Repr, DecidableEq

/-- One `{question, answer}` pair of the in-session conversation history. -/
structure QA where
  question : String
  answer : String
deriving Repr, DecidableEq

/-- The two declared aiogram states (`ConsultationStates` in main.py); the
aiogram default state `None` is modelled as `Option.none` in `Session.fsm`. -/
inductive ConsultationStates
  | category_selection
  | conversation
deriving Repr, DecidableEq

/-- The per-user FSM storage (`state.get_data()` keys used by the source). -/
structure SessionData where
  category : Option String
  categoryName : Option String
  conversationHistory : List QA
deriving Repr, DecidableEq

/-- Cleared FSM storage, as after `state.clear()`. -/
def SessionData.empty : SessionData := ⟨none, none, []⟩

/-- A user's ephemeral session: aiogram state plus stored data. -/
structure Session where
  fsm : Option ConsultationStates
  data : SessionData
deriving Repr, DecidableEq

/-- `DatabaseManager.get_user`: first row with the given `user_id`. -/
def get_user (db : DB) (uid : Int) : Option User :=
  db.users.find? (fun u => u.userId == uid)

/-- `DatabaseManager.update_consultation_count` (main.py 151 – 159): fetches the
user through `get_user`, which opens and closes its own session, so the
returned instance is detached; the handler then increments both counters and
stamps `last_consultation_date` on that detached object and commits a
different session that never saw it, so no UPDATE is emitted and the store is
unchanged — the increments and the date stamp are silently lost. -/
def update_consultation_count (db : DB) (uid : Int) : DB :=
  match get_user db uid with
  | none => db
  | some _ => db

/-- `DatabaseManager.save_consultation`: inserts a fresh row (feedback fields
unset, `is_resolved = False`) and returns it. -/
def save_consultation (db : DB) (uid : Int) (category question response : String)
    (now : Int) : Consultation × DB :=
  let c : Consultation :=
    { id := db.nextConsultationId, userId := uid, category := category,
      content := question, response := response, createdAt := now,
      resolvedAt := none, isResolved := false, feedbackScore := none, feedbackText := none }
  (c, { db with consultations := db.consultations ++ [c],
                nextConsultationId := db.nextConsultationId + 1 })

/-- `DatabaseManager.update_feedback`: if the consultation exists, overwrite
its feedback fields and mark it resolved (the primary key is unique, so the
map touches the fetched row). -/
def update_feedback (db : DB) (cid : Nat) (score : Int) (feedbackText : Option String)
    (now : Int) : DB :=
  { db with consultations := db.consultations.map (fun c =>
      if c.id == cid then
        { c with feedbackScore := some score, feedbackText := feedbackText,
                 isResolved := true, resolvedAt := some now }
      else c) }

/-- The rows the feedback-distribution query ranges over: this user's
consultations whose `feedback_score` is not NULL. -/
def feedbackConsultations (db : DB) (uid : Int) : List Consultation :=
  db.consultations.filter (fun c => c.userId == uid && c.feedbackScore.isSome)

/-- `StatisticsManager.get_feedback_distribution`: counts grouped by
`feedback_score` (non-NULL only), ascending by score. -/
def get_feedback_distribution (db : DB) (uid : Int) : List (Int × Nat) :=
  let cs := feedbackConsultations db uid
  let scores := List.insertionSort (· ≤ ·) (cs.filterMap (fun c => c.feedbackScore)).dedup
  scores.map (fun s => (s, (cs.filter (fun c => c.feedbackScore == some s)).length))

/-- `StatisticsManager.get_weekly_activity`: rows of the last 7 × 24h grouped
by calendar day, then re-keyed to the 7 calendar days ending today (today
first), absent days filled with 0. -/
def get_weekly_activity (db : DB) (uid : Int) (now : Int) : List (Int × Nat) :=
  let weekAgo := now - 7 * secsPerDay
  let recent := db.consultations.filter
    (fun c => c.userId == uid && decide (weekAgo ≤ c.createdAt))
  (List.range 7).map (fun (i : Nat) =>
    let d := calendarDay (now - (i : Int) * secsPerDay)
    (d, (recent.filter (fun c => calendarDay c.createdAt == d)).length))

/-- The percentage column `show_statistics` derives from the distribution:
`count / total * 100` with `total = sum(feedback_dist.values())` (float
arithmetic modelled exactly over ℚ). -/
def feedbackPercentages (dist : List (Int × Nat)) : List ℚ :=
  let total : ℚ := ((dist.map Prod.snd).sum : Nat)
  dist.map (fun p => ((p.2 : ℚ) / total) * 100)

/-- One history block of the prompt context built in `handle_conversation`. -/
def qaBlock (qa : QA) : String :=
  "Savol: " ++ qa.question ++ "\nJavob: " ++ qa.answer ++ "\n\n"

/-- Python slice `l[-3:]` generalised: the last `n` elements of a list. -/
def lastN {α : Type} (n : Nat) (l : List α) : List α := l.drop (l.length - n)

/-- Concatenation of history blocks in order (spec reading of the loop body). -/
def contextBlocks (l : List QA) : String :=
  l.foldr (fun qa acc => qaBlock qa ++ acc) ""

/-- The prompt context of `handle_conversation` lines 368 – 371: category line,
then the loop over `conversation_history[-3:]`, then the new question. -/
def buildContext (categoryName : String) (history : List QA) (newQuestion : String) : String :=
  let header := "Kategoriya: " ++ categoryName ++ "\n\nOldingi savol-javoblar:\n"
  let withHistory := (lastN 3 history).foldl (fun acc qa => acc ++ qaBlock qa) header
  withHistory ++ ("Yangi savol: " ++ newQuestion)

/-- System prompt of `AIResponseGenerator.__init__`. -/
def aiSystemContext : String :=
  "Siz malakali shifokorsiz va tibbiy konsultatsiya boti sifatida ishlaysiz. " ++
  "Foydalanuvchilarga umumiy tibbiy maslahatlar bering, shu bilan birga aniq tashxis qo'yish " ++
  "va davolanish uchun ularni haqiqiy tibbiyot mutaxassislariga murojaat qilishga undab turing. " ++
  "Doim professional va g'amxo'rlik ohangida javob bering. Oldingi suhbat tarixini inobatga olgan " ++
  "holda javoblarni shakllantiring. O'zbek tilida javob bering."

/-- The `category_prompts` dictionary of `generate_response`. -/
def category_prompts : List (String × String) :=
  [("general", "Foydalanuvchining umumiy tibbiy holati haqidagi savoliga malakali shifokor sifatida javob bering: "),
   ("medicine", "Dori-darmonlar haqida malakali shifokor sifatida ma'lumot bering, ularning maqsadi, yon ta'siri va dozasi haqida ma'lumot bering, ammo o'z-o'zini davolashni tavsiya etmang: "),
   ("hospitals", "Kasalxonalar va tibbiy muassasalar haqida malakali shifokor sifatida ma'lumot bering, ularning ixtisosligi, manzili va aloqa ma'lumotlarini taqdim eting: "),
   ("specialists", "Tibbiyot mutaxassislari haqida malakali shifokor sifatida ma'lumot bering, ularning ixtisosligi, tajribasi va aloqa ma'lumotlarini taqdim eting: ")]

/-- Disclaimer appended to every successful AI answer. -/
def aiDisclaimer : String :=
  "\n\n⚠️ Eslatma: Ushbu ma'lumot faqat umumiy maslahat uchun. " ++
  "Aniq tashxis va davolanish uchun shifokorga murojaat qiling."

/-- Fixed fallback string of the `except` branch of `generate_response`. -/
def aiFallbackMessage : String :=
  "Kechirasiz, texnik nosozlik yuz berdi. Iltimos, keyinroq urinib ko'ring."

/-- `AIResponseGenerator.generate_response`: builds the vendor prompt and calls
the opaque AI function; any failure (`none`) yields the fixed fallback string
— the caller never sees an exception. -/
def generate_response (ai : String → Option String) (category context : String) : String :=
  let categoryPrompt := ((category_prompts.find? (fun p => p.1 == category)).map Prod.snd).getD ""
  let prompt := aiSystemContext ++ "\n" ++ categoryPrompt ++ "\n" ++ context
  match ai prompt with
  | some text => text ++ aiDisclaimer
  | none => aiFallbackMessage

/-- Reply of `ask_question` when the daily cap is reached. -/
def quotaExceededMessage : String :=
  "⚠️ Siz bugun ko'p savol berdingiz. Iltimos, ertaga qayta urinib ko'ring."

/-- Reply of the generic `except` branches of the handlers. -/
def genericErrorMessage : String :=
  "Xatolik yuz berdi. Iltimos, qaytadan urinib ko'ring."

/-- Category prompt of `ask_question`. -/
def chooseCategoryMessage : String := "🏥 Qaysi yo'nalishda maslahat olmoqchisiz?"

/-- Control token "back to main menu" of `handle_conversation`. -/
def mainMenuToken : String := "🔙 Asosiy menyu"

/-- Control token "change category" of `handle_conversation`. -/
def changeCategoryToken : String := "🔄 Kategoriyani o'zgartirish"

/-- Reply after returning to the main menu. -/
def backToMainMenuMessage : String := "Asosiy menyuga qaytdingiz."

/-- Reply when changing category. -/
def chooseNewCategoryMessage : String := "🏥 Yangi kategoriyani tanlang:"

/-- Reply of the missing-category branch of `handle_conversation`. -/
def restartErrorMessage : String := "Xatolik yuz berdi. Iltimos, qaytadan boshlang."

/-- Feedback request sent after each answer. -/
def feedbackPrompt : String := "Javobdan qanchalik qoniqding? (1-5 yulduz):"

/-- Result of the `ask_question` handler: new session, (unchanged) store and
outbound messages — the handler performs no store writes. -/
structure AskResult where
  sess : Session
  db : DB
  replies : List String
deriving Repr, DecidableEq

/-- Handler `ask_question` (main.py 296 – 309): reads the user row, denies when
`daily_consultation_count >= MAX_DAILY_CONSULTATIONS`, otherwise enters
`category_selection`.  A missing row raises `AttributeError`, caught by the
`except` branch.  No reset of the daily counter and no clock access occur
anywhere in this handler. -/
def ask_question (db : DB) (sess : Session) (uid : Int) : AskResult :=
  match get_user db uid with
  | none => ⟨sess, db, [genericErrorMessage]⟩
  | some user =>
    if MAX_DAILY_CONSULTATIONS ≤ user.dailyConsultationCount then
      ⟨sess, db, [quotaExceededMessage]⟩
    else
      ⟨{ sess with fsm := some ConsultationStates.category_selection }, db,
        [chooseCategoryMessage]⟩

/-- Result of one `handle_conversation` turn; `feedbackTarget` is the
consultation id carried by the inline rating keyboard, when one is sent. -/
structure TurnResult where
  sess : Session
  db : DB
  replies : List String
  feedbackTarget : Option Nat
deriving Repr, DecidableEq

/-- Handler `handle_conversation` (main.py 343 – 398): control tokens, context
construction, AI call, history append (no truncation), persistence and counter
increment.  `ai` is the opaque vendor call, `now` the clock. -/
def handle_conversation (db : DB) (sess : Session) (uid : Int) (text : String)
    (ai : String → Option String) (now : Int) : TurnResult :=
  if text == mainMenuToken then
    ⟨⟨none, SessionData.empty⟩, db, [backToMainMenuMessage], none⟩
  else if text == changeCategoryToken then
    ⟨⟨some ConsultationStates.category_selection, sess.data⟩, db,
      [chooseNewCategoryMessage], none⟩
  else
    match sess.data.category with
    | none => ⟨⟨none, SessionData.empty⟩, db, [restartErrorMessage], none⟩
    | some category =>
      let categoryName := sess.data.categoryName.getD "None"
      let history := sess.data.conversationHistory
      let context := buildContext categoryName history text
      let response := generate_response ai category context
      let updatedHistory := history ++ [⟨text, response⟩]
      let saved := save_consultation db uid category text response now
      let db2 := update_consultation_count saved.2 uid
      ⟨{ sess with data := { sess.data with conversationHistory := updatedHistory } },
        db2, [response, feedbackPrompt], some saved.1.id⟩

/-- Handler `process_feedback` (main.py 401 – 409): parses `rate_{id}_{score}`
and writes the feedback through `update_feedback` (no feedback text). -/
def process_feedback (db : DB) (cid : Nat) (score : Int) (now : Int) : DB :=
  update_feedback db cid score none now

/-! Auxiliary lemmas about the context window -/

/-- The last-n slice never holds more than n elements. -/
lemma lastN_length_le {α : Type} (n : Nat) (l : List α) : (lastN n l).length ≤ n := by
  simp only [lastN, List.length_drop]
  omega

/-- On a short list the last-n slice is the whole list. -/
lemma lastN_of_length_le {α : Type} {n : Nat} {l : List α} (h : l.length ≤ n) :
    lastN n l = l := by
  simp [lastN, Nat.sub_eq_zero_of_le h]

/-- Taking the last-n slice twice changes nothing. -/
lemma lastN_idem {α : Type} (n : Nat) (l : List α) : lastN n (lastN n l) = lastN n l :=
  lastN_of_length_le (lastN_length_le n l)

/-- The last-n slice is a contiguous suffix: the retained pairs keep their
relative order. -/
lemma lastN_suffix {α : Type} (n : Nat) (l : List α) : List.IsSuffix (lastN n l) l :=
  List.drop_suffix _ _

/-- Left-fold accumulation of history blocks equals the plain concatenation of
the blocks in order. -/
lemma foldl_qaBlock (l : List QA) (init : String) :
    l.foldl (fun acc qa => acc ++ qaBlock qa) init = init ++ contextBlocks l := by
  induction l generalizing init with
  | nil => simp [contextBlocks, String.append_empty]
  | cons qa l ih =>
    rw [List.foldl_cons, ih]
    show init ++ qaBlock qa ++ contextBlocks l = init ++ contextBlocks (qa :: l)
    rw [String.append_assoc]
    rfl

/-- Structural decomposition of the prompt context: category line, retained
blocks in order, new question last. -/
lemma buildContext_eq (categoryName : String) (history : List QA) (newQuestion : String) :
    buildContext categoryName history newQuestion
      = "Kategoriya: " ++ categoryName ++ "\n\nOldingi savol-javoblar:\n"
        ++ contextBlocks (lastN 3 history) ++ ("Yangi savol: " ++ newQuestion) := by
  simp only [buildContext]
  rw [foldl_qaBlock, String.append_assoc]

/-- The prompt context only ever sees the most recent 3 pairs. -/
lemma buildContext_lastN (categoryName : String) (history : List QA) (newQuestion : String) :
    buildContext categoryName history newQuestion
      = buildContext categoryName (lastN 3 history) newQuestion := by
  simp only [buildContext]
  rw [lastN_idem]

/-- Claim C10: for every category label, history and new question, the prompt
context is the category label line, then the retained pairs (at most the most
recent 3, a suffix, hence chronological and never reordered) as
question/answer blocks, then the new question last; histories of at most 3
pairs are retained whole, and the context never depends on more than the last
3 pairs. -/
theorem C10_build_context (categoryName : String) (history : List QA) (newQuestion : String) :
    buildContext categoryName history newQuestion
      = "Kategoriya: " ++ categoryName ++ "\n\nOldingi savol-javoblar:\n"
        ++ contextBlocks (lastN 3 history) ++ ("Yangi savol: " ++ newQuestion)
    ∧ (lastN 3 history).length ≤ 3
    ∧ List.IsSuffix (lastN 3 history) history
    ∧ (history.length ≤ 3 → lastN 3 history = history)
    ∧ buildContext categoryName history newQuestion
      = buildContext categoryName (lastN 3 history) newQuestion :=
  ⟨buildContext_eq categoryName history newQuestion,
   lastN_length_le 3 history,
   lastN_suffix 3 history,
   fun h => lastN_of_length_le h,
   buildContext_lastN categoryName history newQuestion⟩

/-- Witness for C10 at a concrete two-pair history (discharging the inner
length hypothesis). -/
theorem C10_build_context_witness :
    ([⟨"q1", "a1"⟩, ⟨"q2", "a2"⟩] : List QA).length ≤ 3
    ∧ lastN 3 ([⟨"q1", "a1"⟩, ⟨"q2", "a2"⟩] : List QA) = [⟨"q1", "a1"⟩, ⟨"q2", "a2"⟩] :=
  ⟨by decide, (C10_build_context "general" [⟨"q1", "a1"⟩, ⟨"q2", "a2"⟩] "q3").2.2.2.1 (by decide)⟩

/-! Feedback write path (claims C5, C8, C9) -/

/-- Claim C5 (code bug): the feedback write path never touches the `users`
table, so `User.feedbackScore` and `User.feedbackCount` are never folded into
a running average — they keep whatever value they had (the column defaults 0.0
and 0). -/
theorem C5_update_feedback_never_updates_user_aggregates
    (db : DB) (cid : Nat) (score : Int) (ftext : Option String) (now : Int) :
    (update_feedback db cid score ftext now).users = db.users
    ∧ ∀ uid : Int, get_user (update_feedback db cid score ftext now) uid = get_user db uid :=
  ⟨rfl, fun _ => rfl⟩

/-- A matching consultation row reappears with its feedback fields overwritten. -/
lemma mem_update_feedback (db : DB) (cid : Nat) (score : Int) (ftext : Option String)
    (now : Int) {c : Consultation} (hc : c ∈ db.consultations) (hid : c.id = cid) :
    { c with feedbackScore := some score, feedbackText := ftext,
             isResolved := true, resolvedAt := some now }
      ∈ (update_feedback db cid score ftext now).consultations := by
  simp only [update_feedback]
  exact List.mem_map.mpr ⟨c, hc, by rw [if_pos (beq_iff_eq.mpr hid)]⟩

/-- Sample consultation row used by concrete witnesses. -/
def sampleConsultation : Consultation :=
  { id := 1, userId := 7, category := "general", content := "q", response := "a",
    createdAt := 0, resolvedAt := none, isResolved := false,
    feedbackScore := none, feedbackText := none }

/-- Sample consultation row that already carries feedback score 2, resolved at
time 50, as left by a first feedback submission. -/
def ratedConsultation : Consultation :=
  { sampleConsultation with resolvedAt := some 50, isResolved := true, feedbackScore := some 2 }

/-- Concrete store holding only `ratedConsultation`. -/
def ratedDB : DB := ⟨[], [ratedConsultation], 2⟩

/-- Counterexample to claim C8: a consultation already carrying feedback score
2 receives a second submission with score 5, and the stored feedback changes
to 5 (with a new `resolvedAt`) instead of being rejected or ignored. -/
theorem C8_feedback_overwrite_counterexample :
    (update_feedback ratedDB 1 5 none 100).consultations
      = [{ sampleConsultation with resolvedAt := some 100, isResolved := true, feedbackScore := some 5 }]
    ∧ ratedConsultation.feedbackScore = some 2 := by
  exact ⟨rfl, rfl⟩

/-- Claim C8 as amended: a feedback submission for an existing consultation id
overwrites the stored feedback fields (last write wins) — `feedbackScore`,
`feedbackText` and `resolvedAt` are replaced and `isResolved` is set — while
every row with a different id is left unchanged. -/
theorem C8_feedback_last_write_wins (db : DB) (cid : Nat) (score : Int)
    (ftext : Option String) (now : Int) (c : Consultation)
    (hc : c ∈ db.consultations) (hid : c.id = cid) :
    { c with feedbackScore := some score, feedbackText := ftext,
             isResolved := true, resolvedAt := some now }
      ∈ (update_feedback db cid score ftext now).consultations
    ∧ ∀ c2 ∈ db.consultations, c2.id ≠ cid →
        c2 ∈ (update_feedback db cid score ftext now).consultations := by
  refine ⟨mem_update_feedback db cid score ftext now hc hid, ?_⟩
  intro c2 h2 hne
  simp only [update_feedback]
  exact List.mem_map.mpr ⟨c2, h2, by rw [if_neg (fun hh => hne (beq_iff_eq.mp hh))]⟩

/-- Witness for C8 at a concrete store holding one already-resolved row. -/
theorem C8_feedback_last_write_wins_witness :
    ratedConsultation ∈ ratedDB.consultations
    ∧ { ratedConsultation with feedbackScore := some 5, feedbackText := none, isResolved := true, resolvedAt := some 100 }
      ∈ (update_feedback ratedDB 1 5 none 100).consultations :=
  ⟨List.mem_singleton_self _,
   (C8_feedback_last_write_wins ratedDB 1 5 none 100 ratedConsultation
      (List.mem_singleton_self _) rfl).1⟩

/-! Auxiliary lemmas about the session handlers -/

/-- When the vendor call fails, `generate_response` returns the fixed fallback
string instead of raising. -/
lemma generate_response_none (ai : String → Option String) (category context : String)
    (hai : ∀ p, ai p = none) :
    generate_response ai category context = aiFallbackMessage := by
  simp [generate_response, hai]

/-- The counter write is lost: whether or not the user row exists, the store
that `update_consultation_count` leaves behind is the one it was given. -/
lemma update_consultation_count_lost_write (db : DB) (uid : Int) :
    update_consultation_count db uid = db := by
  unfold update_consultation_count
  cases get_user db uid <;> rfl

/-- Full effect of a non-control-token turn with a set category: context from
the stored history, AI call, history append, row insertion, and the (lost)
counter write. -/
lemma handle_conversation_success (db : DB) (fsm : Option ConsultationStates)
    (data : SessionData) (uid : Int) (text : String) (ai : String → Option String)
    (now : Int) (category : String) (hcat : data.category = some category)
    (h1 : text ≠ mainMenuToken) (h2 : text ≠ changeCategoryToken) :
    handle_conversation db ⟨fsm, data⟩ uid text ai now =
      ⟨⟨fsm, { data with conversationHistory := data.conversationHistory ++
          [⟨text,
            generate_response ai category
              (buildContext (data.categoryName.getD "None") data.conversationHistory text)⟩] }⟩,
       update_consultation_count
         (save_consultation db uid category text
           (generate_response ai category
             (buildContext (data.categoryName.getD "None") data.conversationHistory text)) now).2
         uid,
       [generate_response ai category
          (buildContext (data.categoryName.getD "None") data.conversationHistory text),
        feedbackPrompt],
       some db.nextConsultationId⟩ := by
  have b1 : (text == mainMenuToken) = false := beq_eq_false_iff_ne.mpr h1
  have b2 : (text == changeCategoryToken) = false := beq_eq_false_iff_ne.mpr h2
  simp only [handle_conversation, b1, b2, Bool.false_eq_true, if_false, hcat]
  rfl

/-! Concrete sample data for witnesses and counterexamples -/

/-- User at exactly the daily cap, last consultation on calendar day 0. -/
def quotaUser : User :=
  { userId := 1, consultationCount := 10, dailyConsultationCount := 10,
    lastConsultationDate := some 0, feedbackScore := 0, feedbackCount := 0 }

/-- Store holding only `quotaUser`. -/
def quotaDB : DB := ⟨[quotaUser], [], 1⟩

/-- Fresh user with zero counters. -/
def freshUser : User :=
  { userId := 1, consultationCount := 0, dailyConsultationCount := 0,
    lastConsultationDate := none, feedbackScore := 0, feedbackCount := 0 }

/-- Store holding only `freshUser`. -/
def freshDB : DB := ⟨[freshUser], [], 1⟩

/-- Session before any interaction (aiogram state `None`). -/
def idleSession : Session := ⟨none, SessionData.empty⟩

/-- FSM data of an active "general" conversation with empty history. -/
def convData : SessionData := ⟨some "general", some "Umumiy maslahat", []⟩

/-- A stored history already holding 3 pairs. -/
def threeHistory : List QA := [⟨"q1", "a1"⟩, ⟨"q2", "a2"⟩, ⟨"q3", "a3"⟩]

/-- FSM data of an active "general" conversation with a full 3-pair history. -/
def convData3 : SessionData := ⟨some "general", some "Umumiy maslahat", threeHistory⟩

/-- AI oracle that always succeeds with a fixed answer. -/
def okAI : String → Option String := fun _ => some "Javob"

/-- AI oracle that always fails (vendor exception). -/
def failAI : String → Option String := fun _ => none

/-! Claim C1 -/

/-- Claim C1 (code bug): the quota check performs no lazy day-boundary reset.
Even when `lastConsultationDate` falls on a calendar day strictly before
`now`, a user at the cap is still denied and the store — hence the stored
counter — is untouched: nothing in `ask_question` reads the clock or the
stored date. -/
theorem C1_quota_check_never_resets (db : DB) (sess : Session) (uid : Int)
    (u : User) (now : Int) (hu : get_user db uid = some u)
    (hday : ∀ t ∈ u.lastConsultationDate, calendarDay t < calendarDay now)
    (hq : MAX_DAILY_CONSULTATIONS ≤ u.dailyConsultationCount) :
    ask_question db sess uid = ⟨sess, db, [quotaExceededMessage]⟩
    ∧ get_user (ask_question db sess uid).db uid = some u := by
  have h : ask_question db sess uid = ⟨sess, db, [quotaExceededMessage]⟩ := by
    simp [ask_question, hu, hq]
  exact ⟨h, by rw [h]; exact hu⟩

/-- Witness for C1: the cap was reached on day 0, the check happens on day 1,
and the user is still denied with the counter left at 10. -/
theorem C1_quota_check_never_resets_witness :
    get_user quotaDB 1 = some quotaUser
    ∧ (∀ t ∈ quotaUser.lastConsultationDate, calendarDay t < calendarDay 86400)
    ∧ MAX_DAILY_CONSULTATIONS ≤ quotaUser.dailyConsultationCount
    ∧ ask_question quotaDB idleSession 1 = ⟨idleSession, quotaDB, [quotaExceededMessage]⟩ :=
  ⟨rfl,
   by intro t ht; simp [quotaUser, Option.mem_def] at ht; subst ht; decide,
   by decide,
   (C1_quota_check_never_resets quotaDB idleSession 1 quotaUser 86400 rfl
      (by intro t ht; simp [quotaUser, Option.mem_def] at ht; subst ht; decide)
      (by decide)).1⟩

/-! Claim C3 -/

/-- Counterexample to claim C3: a user whose stored `dailyConsultationCount`
is already at the cap (10) but who is sitting in state `conversation` sends an
11th question; it is not denied — the AI is called, the answer (not the quota
message) is sent and a consultation row is created.  The quota is only checked
by the ask-question entry handler, not per turn; the stored counter stays at
10 because the counter write is lost on a detached instance. -/
theorem C3_eleventh_question_in_session_counterexample :
    quotaUser.dailyConsultationCount = MAX_DAILY_CONSULTATIONS
    ∧ (handle_conversation quotaDB ⟨some ConsultationStates.conversation, convData⟩
        1 "Savol matni" okAI 86400).db.consultations.length = 1
    ∧ (handle_conversation quotaDB ⟨some ConsultationStates.conversation, convData⟩
        1 "Savol matni" okAI 86400).replies.head? ≠ some quotaExceededMessage
    ∧ (get_user (handle_conversation quotaDB ⟨some ConsultationStates.conversation, convData⟩
        1 "Savol matni" okAI 86400).db 1).map (fun u => u.dailyConsultationCount) = some 10 := by
  refine ⟨rfl, rfl, ?_, rfl⟩
  decide

/-- Claim C3 as amended: the daily cap is enforced at the ask-question entry
action — for a user at or above the cap the handler replies with the quota
message, performs no state transition, leaves the store untouched (so no
counter change and no consultation row), and sends only the quota reply. -/
theorem C3_entry_quota_denial (db : DB) (sess : Session) (uid : Int) (u : User)
    (hu : get_user db uid = some u)
    (hq : MAX_DAILY_CONSULTATIONS ≤ u.dailyConsultationCount) :
    ask_question db sess uid = ⟨sess, db, [quotaExceededMessage]⟩ := by
  simp [ask_question, hu, hq]

/-- Witness for C3 at the concrete capped user. -/
theorem C3_entry_quota_denial_witness :
    get_user quotaDB 1 = some quotaUser
    ∧ MAX_DAILY_CONSULTATIONS ≤ quotaUser.dailyConsultationCount
    ∧ ask_question quotaDB idleSession 1 = ⟨idleSession, quotaDB, [quotaExceededMessage]⟩ :=
  ⟨rfl, by decide, C3_entry_quota_denial quotaDB idleSession 1 quotaUser rfl (by decide)⟩

/-! Claim C2 -/

/-- Claim C2 as amended: when the AI call fails, `generate_response` swallows
the exception and returns the fixed fallback string as if it were an answer;
the state stays `conversation` and the fallback is returned — but the
`{question, fallback}` pair is appended to the history buffer and a
consultation row holding the fallback as its response is persisted.  The
counters really are left unchanged as claimed, yet not by an error branch:
the counter write of `update_consultation_count` is lost on a detached
instance on every turn, so the users table is untouched. -/
theorem C2_ai_failure_turn (db : DB) (data : SessionData) (uid : Int) (text : String)
    (ai : String → Option String) (now : Int) (category : String)
    (hcat : data.category = some category)
    (h1 : text ≠ mainMenuToken) (h2 : text ≠ changeCategoryToken)
    (hai : ∀ p, ai p = none) :
    handle_conversation db ⟨some ConsultationStates.conversation, data⟩ uid text ai now
      = ⟨⟨some ConsultationStates.conversation,
          { data with conversationHistory := data.conversationHistory ++ [⟨text, aiFallbackMessage⟩] }⟩,
         update_consultation_count (save_consultation db uid category text aiFallbackMessage now).2 uid,
         [aiFallbackMessage, feedbackPrompt], some db.nextConsultationId⟩
    ∧ (handle_conversation db ⟨some ConsultationStates.conversation, data⟩ uid text ai now).db.consultations
      = db.consultations ++ [(save_consultation db uid category text aiFallbackMessage now).1]
    ∧ (handle_conversation db ⟨some ConsultationStates.conversation, data⟩ uid text ai now).db.users
      = db.users
    ∧ get_user (handle_conversation db ⟨some ConsultationStates.conversation, data⟩ uid text ai now).db uid
      = get_user db uid := by
  have h := handle_conversation_success db (some ConsultationStates.conversation) data uid text ai
    now category hcat h1 h2
  rw [generate_response_none ai category
    (buildContext (data.categoryName.getD "None") data.conversationHistory text) hai] at h
  refine ⟨h, ?_, ?_, ?_⟩
  · rw [h, update_consultation_count_lost_write]
    rfl
  · rw [h, update_consultation_count_lost_write]
    rfl
  · rw [h, update_consultation_count_lost_write]
    rfl

/-- The failed-AI turn of the C2 scenario at concrete inputs. -/
def c2run : TurnResult :=
  handle_conversation freshDB ⟨some ConsultationStates.conversation, convData⟩ 1 "Savol" failAI 5

/-- Counterexample to claim C2: with a failing AI call the fallback message is
indeed returned, but — against the claim — a consultation row is persisted and
the history buffer gains the `{question, fallback}` pair. -/
theorem C2_ai_failure_persists_counterexample :
    c2run.replies.head? = some aiFallbackMessage
    ∧ c2run.db.consultations.length = 1
    ∧ c2run.sess.data.conversationHistory = [⟨"Savol", aiFallbackMessage⟩]
    ∧ freshDB.consultations.length = 0
    ∧ convData.conversationHistory = [] := by
  exact ⟨rfl, rfl, rfl, rfl, rfl⟩

/-- Witness for C2 at the concrete failing-AI turn. -/
theorem C2_ai_failure_turn_witness :
    convData.category = some "general"
    ∧ (∀ p, failAI p = none)
    ∧ (handle_conversation freshDB ⟨some ConsultationStates.conversation, convData⟩
        1 "Savol" failAI 5).db.users = freshDB.users :=
  ⟨rfl, fun _ => rfl,
   (C2_ai_failure_turn freshDB convData 1 "Savol" failAI 5 "general" rfl
      (by decide) (by decide) (fun _ => rfl)).2.2.1⟩

/-! Claim C4 -/

/-- Claim C4 as amended: a successful turn appends the new pair to the stored
history buffer without any eviction — the buffer can grow beyond 3 pairs — and
only the prompt construction is bounded: the context string never depends on
more than the most recent 3 stored pairs. -/
theorem C4_history_append_no_eviction (db : DB) (fsm : Option ConsultationStates)
    (data : SessionData) (uid : Int) (text : String) (ai : String → Option String)
    (now : Int) (category : String) (hcat : data.category = some category)
    (h1 : text ≠ mainMenuToken) (h2 : text ≠ changeCategoryToken) :
    (handle_conversation db ⟨fsm, data⟩ uid text ai now).sess.data.conversationHistory
      = data.conversationHistory ++
        [⟨text, generate_response ai category (buildContext (data.categoryName.getD "None") data.conversationHistory text)⟩]
    ∧ buildContext (data.categoryName.getD "None") data.conversationHistory text
      = buildContext (data.categoryName.getD "None") (lastN 3 data.conversationHistory) text := by
  rw [handle_conversation_success db fsm data uid text ai now category hcat h1 h2]
  exact ⟨rfl, buildContext_lastN _ _ _⟩

/-- Counterexample to claim C4: starting from a full 3-pair buffer, one more
successful turn leaves 4 pairs stored — no FIFO eviction happens on append. -/
theorem C4_history_grows_beyond_three_counterexample :
    threeHistory.length = 3
    ∧ (handle_conversation freshDB ⟨some ConsultationStates.conversation, convData3⟩
        1 "q4" okAI 5).sess.data.conversationHistory.length = 4 := by
  exact ⟨rfl, rfl⟩

/-- Witness for C4 at the concrete 3-pair buffer. -/
theorem C4_history_append_no_eviction_witness :
    convData3.category = some "general"
    ∧ (handle_conversation freshDB ⟨some ConsultationStates.conversation, convData3⟩
        1 "q4" okAI 5).sess.data.conversationHistory
      = convData3.conversationHistory ++
        [⟨"q4", generate_response okAI "general" (buildContext (convData3.categoryName.getD "None") convData3.conversationHistory "q4")⟩] :=
  ⟨rfl, (C4_history_append_no_eviction freshDB (some ConsultationStates.conversation)
      convData3 1 "q4" okAI 5 "general" rfl (by decide) (by decide)).1⟩

/-! Auxiliary lemmas about the feedback distribution -/

/-- Per-score bucket size equals the multiplicity of the score among the
extracted feedback scores. -/
lemma filter_score_length (l : List Consultation) (s : Int) :
    (l.filter (fun c => c.feedbackScore == some s)).length
      = List.count s (l.filterMap (fun c => c.feedbackScore)) := by
  induction l with
  | nil => rfl
  | cons c l ih =>
    cases h : c.feedbackScore with
    | none => simp [List.filter_cons, List.filterMap_cons, h, ih]
    | some t =>
      by_cases hts : t = s
      · simp [List.filter_cons, List.filterMap_cons, List.count_cons, h, hts, ih]
      · simp [List.filter_cons, List.filterMap_cons, List.count_cons, h, hts, ih]

/-- Extracting an always-present optional field preserves the length. -/
lemma filterMap_length_of_all_isSome (l : List Consultation)
    (h : ∀ c ∈ l, c.feedbackScore.isSome) :
    (l.filterMap (fun c => c.feedbackScore)).length = l.length := by
  induction l with
  | nil => rfl
  | cons c l ih =>
    have hc := h c (List.mem_cons_self c l)
    cases hcs : c.feedbackScore with
    | none => rw [hcs] at hc; simp at hc
    | some t =>
      simp [List.filterMap_cons, hcs, ih (fun c2 hc2 => h c2 (List.mem_cons_of_mem _ hc2))]

/-- Every row the distribution query ranges over carries a feedback score. -/
lemma feedbackConsultations_isSome (db : DB) (uid : Int) :
    ∀ c ∈ feedbackConsultations db uid, c.feedbackScore.isSome := by
  intro c hc
  have hpred := (List.mem_filter.mp hc).2
  simp only [Bool.and_eq_true] at hpred
  exact hpred.2

/-- The bucket counts of the feedback distribution partition the rows: they
sum to the number of resolved-with-feedback consultations. -/
lemma distribution_total (db : DB) (uid : Int) :
    ((get_feedback_distribution db uid).map Prod.snd).sum
      = (feedbackConsultations db uid).length := by
  simp only [get_feedback_distribution]
  rw [List.map_map]
  have h1 : (Prod.snd ∘ fun s =>
        (s, ((feedbackConsultations db uid).filter (fun c => c.feedbackScore == some s)).length))
      = fun s => List.count s ((feedbackConsultations db uid).filterMap (fun c => c.feedbackScore)) :=
    funext (fun s => filter_score_length (feedbackConsultations db uid) s)
  rw [h1]
  have hperm := (List.perm_insertionSort (· ≤ ·)
      ((feedbackConsultations db uid).filterMap (fun c => c.feedbackScore)).dedup).map
      (fun s => List.count s ((feedbackConsultations db uid).filterMap (fun c => c.feedbackScore)))
  rw [hperm.sum_eq, List.sum_map_count_dedup_eq_length]
  exact filterMap_length_of_all_isSome _ (feedbackConsultations_isSome db uid)

/-- Linearity: a sum of `count / T * 100` terms collapses to `total / T * 100`. -/
lemma perc_sum_linear (l : List (Int × Nat)) (T : ℚ) :
    (l.map (fun p => ((p.2 : ℚ) / T) * 100)).sum
      = (((l.map Prod.snd).sum : Nat) : ℚ) / T * 100 := by
  induction l with
  | nil => simp
  | cons p l ih =>
    simp only [List.map_cons, List.sum_cons, ih]
    push_cast
    ring

/-! Claim C7 -/

/-- Claim C7: with no resolved-with-feedback consultations the aggregator
returns the empty structure (so `show_statistics` skips the division and no
division by zero occurs); the bucket counts always sum to the total of
resolved-with-feedback consultations; and whenever that total is positive the
percentages `count / total * 100` over all buckets sum to exactly 100. -/
theorem C7_feedback_distribution_percentages (db : DB) (uid : Int) :
    (feedbackConsultations db uid = [] → get_feedback_distribution db uid = [])
    ∧ ((get_feedback_distribution db uid).map Prod.snd).sum
        = (feedbackConsultations db uid).length
    ∧ (feedbackConsultations db uid ≠ [] →
        (feedbackPercentages (get_feedback_distribution db uid)).sum = 100) := by
  refine ⟨?_, distribution_total db uid, ?_⟩
  · intro h
    simp [get_feedback_distribution, h]
  · intro h
    have hpos : 0 < (feedbackConsultations db uid).length := List.length_pos.mpr h
    have hne : (((feedbackConsultations db uid).length : Nat) : ℚ) ≠ 0 :=
      Nat.cast_ne_zero.mpr (Nat.pos_iff_ne_zero.mp hpos)
    simp only [feedbackPercentages]
    rw [perc_sum_linear, distribution_total db uid, div_self hne, one_mul]

/-- Witness for C7 at a store holding one rated consultation of user 7. -/
theorem C7_feedback_distribution_percentages_witness :
    feedbackConsultations ratedDB 7 ≠ []
    ∧ (feedbackPercentages (get_feedback_distribution ratedDB 7)).sum = 100 :=
  ⟨by decide, (C7_feedback_distribution_percentages ratedDB 7).2.2 (by decide)⟩

/-! Claim C9 -/

/-- Claim C9: submitting feedback score `s` (1 – 5) for an existing
consultation marks that consultation resolved (`isResolved` set, `resolvedAt`
stamped) and makes it appear in bucket `s` of the user's feedback
distribution, whose count is at least 1. -/
theorem C9_feedback_roundtrip (db : DB) (cid : Nat) (uid : Int) (s : Int)
    (ftext : Option String) (now : Int) (c : Consultation)
    (hc : c ∈ db.consultations) (hid : c.id = cid) (huid : c.userId = uid)
    (hs1 : 1 ≤ s) (hs5 : s ≤ 5) :
    { c with feedbackScore := some s, feedbackText := ftext, isResolved := true, resolvedAt := some now }
      ∈ (update_feedback db cid s ftext now).consultations
    ∧ ({ c with feedbackScore := some s, feedbackText := ftext, isResolved := true, resolvedAt := some now } : Consultation).isResolved = true
    ∧ ({ c with feedbackScore := some s, feedbackText := ftext, isResolved := true, resolvedAt := some now } : Consultation).resolvedAt = some now
    ∧ ∃ n, (s, n) ∈ get_feedback_distribution (update_feedback db cid s ftext now) uid ∧ 1 ≤ n := by
  refine ⟨mem_update_feedback db cid s ftext now hc hid, rfl, rfl, ?_⟩
  have hc2 : ({ c with feedbackScore := some s, feedbackText := ftext, isResolved := true, resolvedAt := some now } : Consultation)
      ∈ (update_feedback db cid s ftext now).consultations :=
    mem_update_feedback db cid s ftext now hc hid
  have hcs : ({ c with feedbackScore := some s, feedbackText := ftext, isResolved := true, resolvedAt := some now } : Consultation)
      ∈ feedbackConsultations (update_feedback db cid s ftext now) uid :=
    List.mem_filter.mpr ⟨hc2, by simp [huid]⟩
  have hss : s ∈ (feedbackConsultations (update_feedback db cid s ftext now) uid).filterMap
      (fun c => c.feedbackScore) :=
    List.mem_filterMap.mpr ⟨_, hcs, rfl⟩
  have hsorted : s ∈ List.insertionSort (· ≤ ·)
      ((feedbackConsultations (update_feedback db cid s ftext now) uid).filterMap
        (fun c => c.feedbackScore)).dedup :=
    (List.perm_insertionSort _ _).mem_iff.mpr (List.mem_dedup.mpr hss)
  refine ⟨((feedbackConsultations (update_feedback db cid s ftext now) uid).filter
      (fun c => c.feedbackScore == some s)).length, ?_, ?_⟩
  · simp only [get_feedback_distribution]
    exact List.mem_map.mpr ⟨s, hsorted, rfl⟩
  · have hmem : ({ c with feedbackScore := some s, feedbackText := ftext, isResolved := true, resolvedAt := some now } : Consultation)
        ∈ (feedbackConsultations (update_feedback db cid s ftext now) uid).filter
          (fun c => c.feedbackScore == some s) :=
      List.mem_filter.mpr ⟨hcs, by simp⟩
    have hlen := List.length_pos.mpr (List.ne_nil_of_mem hmem)
    omega

/-- Witness for C9: score 4 submitted for the stored unrated consultation of
user 7 lands in bucket 4. -/
theorem C9_feedback_roundtrip_witness :
    sampleConsultation ∈ (⟨[], [sampleConsultation], 2⟩ : DB).consultations
    ∧ (1 : Int) ≤ 4
    ∧ (∃ n, ((4 : Int), n) ∈ get_feedback_distribution
        (update_feedback ⟨[], [sampleConsultation], 2⟩ 1 4 none 9) 7 ∧ 1 ≤ n) :=
  ⟨List.mem_singleton_self _, by decide,
   (C9_feedback_roundtrip ⟨[], [sampleConsultation], 2⟩ 1 7 4 none 9 sampleConsultation
      (List.mem_singleton_self _) rfl rfl (by decide) (by decide)).2.2.2⟩

/-! Auxiliary lemmas about the weekly-activity histogram -/

/-- Sums of pointwise sums of two tallies split. -/
lemma sum_map_add (ns : List Nat) (f g : Nat → Nat) :
    (ns.map (fun i => f i + g i)).sum = (ns.map f).sum + (ns.map g).sum := by
  induction ns with
  | nil => rfl
  | cons n ns ih =>
    simp only [List.map_cons, List.sum_cons, ih]
    omega

/-- Subtracting whole days shifts the calendar day by that many days. -/
lemma calendarDay_sub_days (now : Int) (i : Nat) :
    calendarDay (now - (i : Int) * secsPerDay) = calendarDay now - (i : Int) := by
  unfold calendarDay secsPerDay
  omega

/-- A timestamp lands on exactly one of the seven day buckets ending at `D`,
and on none when it lies outside the window. -/
lemma window_ite_sum (d D : Int) :
    ((List.range 7).map (fun (i : Nat) => if (d == D - (i : Int)) = true then (1 : Nat) else 0)).sum
      = if (decide (D - 6 ≤ d) && decide (d ≤ D)) = true then 1 else 0 := by
  have h7 : List.range 7 = [0, 1, 2, 3, 4, 5, 6] := rfl
  rw [h7]
  simp only [List.map_cons, List.map_nil, List.sum_cons, List.sum_nil, beq_iff_eq,
    Bool.and_eq_true, decide_eq_true_iff]
  split_ifs <;> omega

/-- Summing the seven per-day tallies counts each row in the 7-day calendar
window exactly once. -/
lemma weekly_sum_aux (l : List Consultation) (uid : Int) (D : Int) :
    ((List.range 7).map (fun (i : Nat) =>
        l.countP (fun c => c.userId == uid && (calendarDay c.createdAt == D - (i : Int))))).sum
      = l.countP (fun c => c.userId == uid
          && decide (D - 6 ≤ calendarDay c.createdAt) && decide (calendarDay c.createdAt ≤ D)) := by
  induction l with
  | nil => simp
  | cons c l ih =>
    simp only [List.countP_cons]
    rw [sum_map_add (List.range 7)
      (fun (i : Nat) => l.countP (fun c => c.userId == uid && (calendarDay c.createdAt == D - (i : Int))))
      (fun (i : Nat) => if (c.userId == uid && (calendarDay c.createdAt == D - (i : Int))) = true then 1 else 0)]
    rw [ih]
    congr 1
    cases hu : (c.userId == uid) with
    | true =>
      simp only [hu, Bool.true_and]
      exact window_ite_sum (calendarDay c.createdAt) D
    | false => simp [hu]

/-- Each histogram entry counts, over the whole table, this user's rows whose
calendar day is the bucket's day: within the 7-day window the timestamp filter
`created_at >= now - 7 days` is implied by the day equality. -/
lemma weekly_entry_count (l : List Consultation) (uid : Int) (now : Int) (i : Nat) (hi : i < 7) :
    ((l.filter (fun c => c.userId == uid && decide (now - 7 * secsPerDay ≤ c.createdAt))).filter
        (fun c => calendarDay c.createdAt == calendarDay (now - (i : Int) * secsPerDay))).length
      = l.countP (fun c => c.userId == uid && (calendarDay c.createdAt == calendarDay now - (i : Int))) := by
  rw [← List.countP_eq_length_filter, List.countP_filter]
  congr 1
  funext c
  rw [calendarDay_sub_days now i]
  cases hu : (c.userId == uid) with
  | false => simp [hu]
  | true =>
    simp only [hu, Bool.true_and, Bool.and_true]
    cases hd : (calendarDay c.createdAt == calendarDay now - (i : Int)) with
    | false => simp [hd]
    | true =>
      simp only [hd, Bool.true_and, Bool.and_true]
      refine decide_eq_true ?_
      have hdd := beq_iff_eq.mp hd
      unfold calendarDay secsPerDay at hdd
      unfold secsPerDay
      omega

/-- Claim C6: the weekly-activity histogram always has exactly 7 entries, one
per calendar day ending today in a fixed order (today first, then day − 1, …,
day − 6), with distinct day keys (zero-activity days therefore present with
count 0), and the 7 counts sum to the number of this user's consultations
created on those 7 calendar days. -/
theorem C6_weekly_activity (db : DB) (uid : Int) (now : Int) :
    (get_weekly_activity db uid now).length = 7
    ∧ (get_weekly_activity db uid now).map Prod.fst
        = (List.range 7).map (fun (i : Nat) => calendarDay now - (i : Int))
    ∧ ((get_weekly_activity db uid now).map Prod.fst).Nodup
    ∧ ((get_weekly_activity db uid now).map Prod.snd).sum
        = db.consultations.countP (fun c => c.userId == uid
            && decide (calendarDay now - 6 ≤ calendarDay c.createdAt)
            && decide (calendarDay c.createdAt ≤ calendarDay now)) := by
  have hmap : (get_weekly_activity db uid now).map Prod.fst
      = (List.range 7).map (fun (i : Nat) => calendarDay now - (i : Int)) := by
    simp only [get_weekly_activity, List.map_map]
    exact List.map_congr_left (fun i _ => calendarDay_sub_days now i)
  refine ⟨by simp [get_weekly_activity], hmap, ?_, ?_⟩
  · rw [hmap]
    refine List.Nodup.map ?_ (List.nodup_range 7)
    intro a b hab
    simp only [sub_right_inj, Nat.cast_inj] at hab
    exact hab
  · have hmap2 : (get_weekly_activity db uid now).map Prod.snd
        = (List.range 7).map (fun (i : Nat) => db.consultations.countP
            (fun c => c.userId == uid && (calendarDay c.createdAt == calendarDay now - (i : Int)))) := by
      simp only [get_weekly_activity, List.map_map]
      exact List.map_congr_left
        (fun i hi => weekly_entry_count db.consultations uid now i (List.mem_range.mp hi))
    rw [hmap2, weekly_sum_aux db.consultations uid (calendarDay now)]
